import Mathlib

/-
  Verification development for the spotify_hypothesis_testing repository.

  The collector (src/src/data_collection/optimised_title_collector.py), the
  cleaning pipeline (src/src/data_processing/data_cleaner.py) and the
  statistical interpretation bands (src/src/hypothesis_testing/statistical_tests.py)
  are shallowly embedded below.  Python strings are modelled as lists of
  characters (code points); the external Spotify search API is modelled as an
  environment function from (query, offset) to a page of items.  Python
  functions that signal failure by returning None or by raising are modelled
  with Option / Except.
-/

/-- Text is modelled as a list of code points, matching Python string semantics. -/
abbrev Str := List Char

/-- Words of a Python str.split() call: whitespace-run separated, no empty tokens.
    The accumulator holds the current word reversed. -/
def wordsAux : Str → Str → List Str
  | [], cur => if cur = [] then [] else [cur.reverse]
  | c :: rest, cur =>
    if c.isWhitespace then
      (if cur = [] then wordsAux rest [] else cur.reverse :: wordsAux rest [])
    else wordsAux rest (c :: cur)

/-- Python str.split() without arguments: whitespace-delimited tokens. -/
def pyWords (s : Str) : List Str := wordsAux s []

/-- Decimal digits of a string folded into a number. -/
def digitsToNat : Str → Nat → Nat
  | [], acc => acc
  | c :: rest, acc => digitsToNat rest (acc * 10 + (c.toNat - 48))

/-- Python int(s) for the non-negative decimal case: whitespace around the
    numeral is tolerated, anything else fails (ValueError becomes none).
    Signs and underscore separators, which never occur in release-date
    prefixes, are not modelled. -/
def pyIntOpt (s : Str) : Option Nat :=
  let t := ((s.dropWhile Char.isWhitespace).reverse.dropWhile Char.isWhitespace).reverse
  if t = [] then none
  else if t.all Char.isDigit then some (digitsToNat t 0) else none

/-- Feature: title_length = len(track_name) in _search_tracks. -/
def title_length (s : Str) : Nat := s.length

/-- Feature: word_count = len(track_name.split()) in _search_tracks. -/
def word_count (s : Str) : Nat := (pyWords s).length

/-- Feature: has_numbers = any(c.isdigit() for c in track_name); Char.isDigit
    models str.isdigit for the ASCII range that occurs in the data. -/
def has_digit (s : Str) : Bool := s.any Char.isDigit

/-- Feature: has_special_chars = any(not c.isalnum() and not c.isspace() for c
    in track_name); Char.isAlphanum models str.isalnum for the ASCII range. -/
def has_special_char (s : Str) : Bool := s.any fun c => !c.isAlphanum && !c.isWhitespace

/-- One candidate item of a search result page, as _search_tracks reads it:
    track name, primary artist name, the album release-date field
    (none models a missing key, which raises KeyError; an empty list models a
    falsy value, i.e. an empty or null date), popularity and duration. -/
structure Item where
  name : Str
  artistName : Str
  releaseDate : Option Str
  popularity : Nat
  durationMs : Nat
deriving DecidableEq

/-- One collected track record, with exactly the keys the collector emits in
    _search_tracks (year_tracks.append call). -/
structure Record where
  trackName : Str
  artistName : Str
  popularity : Nat
  durationMs : Nat
  titleLength : Nat
  wordCount : Nat
  hasNumbers : Bool
  hasSpecialChars : Bool
  genreCategory : Str
  releaseYear : Nat
deriving DecidableEq

/-- The record built from a kept item in _search_tracks: features are computed
    from the track name, and release_year is set to the target (query) year. -/
def mkRecord (it : Item) (genre : Str) (targetYear : Nat) : Record :=
  { trackName := it.name
    artistName := it.artistName
    popularity := it.popularity
    durationMs := it.durationMs
    titleLength := title_length it.name
    wordCount := word_count it.name
    hasNumbers := has_digit it.name
    hasSpecialChars := has_special_char it.name
    genreCategory := genre
    releaseYear := targetYear }

/-- Release-year parse of _search_tracks: int(album_date[:4]). -/
def parse_release_year (d : Str) : Option Nat := pyIntOpt (d.take 4)

/-- The release-year verification block of _search_tracks, returning whether
    the item survives it.  Mirrors the Python control flow: a missing key
    (KeyError) skips the item; a falsy (empty) date skips the verification and
    keeps the item; a date whose first four characters do not parse
    (ValueError) skips the item; a parsed year different from the target year
    skips the item. -/
def passes_year_check (it : Item) (targetYear : Nat) : Bool :=
  match it.releaseDate with
  | none => false
  | some d =>
    if d = [] then true
    else
      match parse_release_year d with
      | none => false
      | some ry => ry == targetYear

/-- Processing of one candidate track inside the page loop of _search_tracks:
    duplicate (title, artist) pairs already in year_tracks are skipped, then
    the release year is verified, then the popularity quality floor of 15 is
    applied, and surviving items are appended. -/
def processItem (targetYear : Nat) (genre : Str) (acc : List Record) (it : Item) : List Record :=
  if acc.any (fun t => t.trackName == it.name && t.artistName == it.artistName) then acc
  else if passes_year_check it targetYear = false then acc
  else if it.popularity < 15 then acc
  else acc ++ [mkRecord it genre targetYear]

/-- The for-loop over one result page in _search_tracks, with the early break
    once the per-year target is reached. -/
def processPage (tpy targetYear : Nat) (genre : Str) : List Item → List Record → List Record
  | [], acc => acc
  | it :: rest, acc =>
    if tpy ≤ acc.length then acc
    else processPage tpy targetYear genre rest (processItem targetYear genre acc it)

/-- The search API collaborator: a query string and an offset yield one page
    of items.  Request pacing (time.sleep) has no observable effect and is not
    modelled; transient API exceptions, which the source swallows with a break
    or a bare return, are not modelled either (the environment is total). -/
abbrev SearchEnv := Str → Nat → List Item

/-- The pagination loop of _search_tracks: while the per-year target is not
    reached and the offset is below the 500 ceiling, fetch a page, stop on an
    empty page, process the page and advance the offset by the page length.
    The fuel argument only bounds the recursion; called with fuel 500 it never
    runs out before the offset ceiling, because every iteration advances the
    offset by at least one (empty pages exit the loop). -/
def searchTracksAux (env : SearchEnv) (query : Str) (tpy targetYear : Nat) (genre : Str) :
    Nat → Nat → List Record → List Record
  | _, 0, acc => acc
  | offset, fuel + 1, acc =>
    if acc.length < tpy ∧ offset < 500 then
      if env query offset = [] then acc
      else searchTracksAux env query tpy targetYear genre
        (offset + (env query offset).length) fuel
        (processPage tpy targetYear genre (env query offset) acc)
    else acc

/-- _search_tracks: runs the pagination loop from offset 0 with the 500
    offset ceiling, returning the updated accumulator. -/
def search_tracks (env : SearchEnv) (query : Str) (tpy targetYear : Nat) (genre : Str)
    (acc : List Record) : List Record :=
  searchTracksAux env query tpy targetYear genre 0 500 acc

/-- The first query formulation of one attempt: "year:Y " followed by the
    round-robin variant genre_queries[query_index % len(genre_queries)]. -/
def formulation1 (queries : List Str) (year qi : Nat) : Str :=
  "year:".data ++ Nat.toDigits 10 year ++ " ".data ++ queries.getD (qi % queries.length) []

/-- The second query formulation of one attempt: "year:Y genre:G". -/
def formulation2 (genre : Str) (year : Nat) : Str :=
  "year:".data ++ Nat.toDigits 10 year ++ " genre:".data ++ genre

/-- One attempt of the per-cell while loop: _search_tracks on the variant
    formulation, then — only when the per-year target is still unmet, the
    break in the for-loop over search_queries — _search_tracks on the genre
    formulation. -/
def attemptQueryVariant (env : SearchEnv) (queries : List Str) (genre : Str)
    (year tpy qi : Nat) (acc : List Record) : List Record :=
  if tpy ≤ (search_tracks env (formulation1 queries year qi) tpy year genre acc).length then
    search_tracks env (formulation1 queries year qi) tpy year genre acc
  else
    search_tracks env (formulation2 genre year) tpy year genre
      (search_tracks env (formulation1 queries year qi) tpy year genre acc)

/-- The per-cell while loop of _collect_genre_tracks.  Each attempt advances
    the round-robin query index; the fuel is the remaining attempt budget
    (max_attempts = len(genre_queries) * 3 at the top call); the returned
    number counts the attempts performed. -/
def collectCellAux (env : SearchEnv) (queries : List Str) (genre : Str) (year tpy : Nat) :
    Nat → Nat → List Record → List Record × Nat
  | _, 0, acc => (acc, 0)
  | qi, fuel + 1, acc =>
    if tpy ≤ acc.length then (acc, 0)
    else
      Prod.map id (· + 1)
        (collectCellAux env queries genre year tpy (qi + 1) fuel
          (attemptQueryVariant env queries genre year tpy qi acc))

/-- One (genre, year) cell of _collect_genre_tracks: the while loop starting
    from an empty year_tracks list, query index 0 and the attempt budget
    len(genre_queries) * 3. -/
def collectCell (env : SearchEnv) (queries : List Str) (genre : Str) (year tpy : Nat) :
    List Record × Nat :=
  collectCellAux env queries genre year tpy 0 (queries.length * 3) []

/-- The records a cell contributes. -/
def collectCellRecords (env : SearchEnv) (queries : List Str) (genre : Str) (year tpy : Nat) :
    List Record :=
  (collectCell env queries genre year tpy).1

/-- Collector configuration: the instance attributes set in __init__,
    _setup_collection_parameters and consulted by collect_tracks. -/
structure CollectorState where
  genres : List Str
  years : List Nat
  tracksPerYear : Nat
  targetPerGenre : Nat
  genreCategories : Str → List Str

/-- The eight fixed genres of __init__. -/
def theGenres : List Str :=
  ["pop".data, "rock".data, "hip-hop".data, "electronic".data,
   "jazz".data, "classical".data, "metal".data, "r&b".data]

/-- The fixed descending year list of _setup_collection_parameters. -/
def theYears : List Nat := [2024, 2023, 2022, 2021, 2020]

/-- The genre search-strategy dictionary of _setup_spotify_client.  Lookup of
    a key outside the dictionary, which the source never performs because the
    genre list is a subset of the keys, is modelled as the empty list. -/
def genreCategoriesMap (genre : Str) : List Str :=
  if genre = "pop".data then
    ["genre:pop".data, "genre:dance-pop".data, "genre:synth-pop".data, "genre:electropop".data,
     "genre:indie-pop".data, "genre:teen-pop".data, "genre:art-pop".data, "genre:dream-pop".data,
     "genre:britpop".data, "genre:k-pop".data, "genre:j-pop".data]
  else if genre = "rock".data then
    ["genre:rock".data, "genre:alternative-rock".data, "genre:indie-rock".data,
     "genre:classic-rock".data, "genre:hard-rock".data, "genre:post-rock".data,
     "genre:progressive-rock".data, "genre:psychedelic-rock".data,
     "genre:garage-rock".data, "genre:punk-rock".data, "genre:folk-rock".data]
  else if genre = "hip-hop".data then
    ["genre:hip-hop".data, "genre:rap".data, "genre:trap".data, "genre:old-school-hip-hop".data,
     "genre:east-coast-hip-hop".data, "genre:west-coast-hip-hop".data,
     "genre:southern-hip-hop".data, "genre:conscious-hip-hop".data, "genre:gangsta-rap".data]
  else if genre = "electronic".data then
    ["genre:electronic".data, "genre:techno".data, "genre:house".data, "genre:deep-house".data,
     "genre:tech-house".data, "genre:progressive-house".data, "genre:electro-house".data,
     "genre:trance".data, "genre:dubstep".data, "genre:drum-and-bass".data]
  else if genre = "jazz".data then
    ["genre:jazz".data, "genre:smooth-jazz".data, "genre:jazz-fusion".data,
     "genre:contemporary-jazz".data, "genre:bebop".data, "genre:hard-bop".data,
     "genre:cool-jazz".data, "genre:free-jazz".data, "genre:latin-jazz".data, "genre:swing".data]
  else if genre = "classical".data then
    ["genre:classical".data, "genre:baroque".data, "genre:romantic".data,
     "genre:contemporary-classical".data, "genre:classical-piano".data,
     "genre:chamber-music".data, "genre:orchestral".data, "genre:opera".data]
  else if genre = "metal".data then
    ["genre:metal".data, "genre:heavy-metal".data, "genre:death-metal".data,
     "genre:black-metal".data, "genre:thrash-metal".data, "genre:power-metal".data,
     "genre:progressive-metal".data, "genre:doom-metal".data, "genre:metalcore".data]
  else if genre = "r&b".data then
    ["genre:r&b".data, "genre:rnb".data, "genre:contemporary-r&b".data, "genre:neo-soul".data,
     "genre:alternative-r&b".data, "genre:soul".data, "genre:funk".data, "genre:gospel".data]
  else []

/-- The collector state after __init__ and _setup_collection_parameters. -/
def initCollector (testMode : Bool) : CollectorState :=
  { genres := theGenres
    years := theYears
    tracksPerYear := if testMode then 2 else 400
    targetPerGenre := if testMode then 10 else 2000
    genreCategories := genreCategoriesMap }

/-- The per-year sub-target computation of collect_tracks for a caller
    supplied target: floor division by the number of years with a minimum
    of one. -/
def perYearSubTarget (total numYears : Nat) : Nat :=
  let q := total / numYears
  if q = 0 then 1 else q

/-- The target override at the top of collect_tracks: a caller-supplied
    target per genre replaces the configured one and recomputes the per-year
    sub-target. -/
def applyTarget (st : CollectorState) : Option Nat → CollectorState
  | none => st
  | some t =>
    { st with targetPerGenre := t, tracksPerYear := perYearSubTarget t st.years.length }

/-- _collect_genre_tracks: the per-year cells of one genre in the fixed
    descending year order, concatenated. -/
def collect_genre_tracks (env : SearchEnv) (st : CollectorState) (genre : Str) : List Record :=
  st.years.foldl
    (fun acc y => acc ++ collectCellRecords env (st.genreCategories genre) genre y st.tracksPerYear)
    []

/-- The flat list of records a whole run accumulates in collect_tracks
    (all_tracks), genre-major in the fixed genre order. -/
def runRecords (env : SearchEnv) (st : CollectorState) (targetOverride : Option Nat) :
    List Record :=
  let st2 := applyTarget st targetOverride
  st2.genres.foldl (fun acc g => acc ++ collect_genre_tracks env st2 g) []

/-- collect_tracks: None when no tracks were collected at all, otherwise the
    dataset.  The DataFrame built from the records adds title_length and
    word_count columns only when absent; they are always present here, so the
    post-processing is the identity on the record list. -/
def collect_tracks (env : SearchEnv) (st : CollectorState) (targetOverride : Option Nat) :
    Option (List Record) :=
  let all := runRecords env st targetOverride
  if all = [] then none else some all

/-- Two records share the (title, artist) identity pair. -/
def sameKey (a b : Record) : Bool :=
  a.trackName == b.trackName && a.artistName == b.artistName

/-- No two records of the list share the (title, artist) identity pair. -/
def keyUnique : List Record → Bool
  | [] => true
  | r :: rs => !(rs.any (sameKey r)) && keyUnique rs

/-- First-occurrence-wins deduplication on the (title, artist) key; the seen
    list holds the records already emitted. -/
def dedupAux (seen : List Record) : List Record → List Record
  | [] => []
  | r :: rs =>
    if seen.any (fun s => sameKey s r) then dedupAux seen rs
    else r :: dedupAux (r :: seen) rs

/-- Modelled from the spec: the Recovery Loader (recover_partial_collection)
    is called from main.py run_step_2 but its implementation is not among the
    source files.  Following section 4.4 of the spec, a checkpoint directory
    is a list of files, each either unreadable or unparseable (none) or a
    parsed list of records (some); if no file is parseable the loader fails
    with a RecoveryError-class condition, otherwise it concatenates all
    parseable files and re-applies the (title, artist) uniqueness invariant,
    first occurrence winning, skipping the unreadable files. -/
def recover_partial_collection (files : List (Option (List Record))) :
    Except String (List Record) :=
  let parsed := files.filterMap id
  if parsed = [] then .error "RecoveryError"
  else .ok (dedupAux [] parsed.flatten)

/-- A cell of the tabular DataFrame model: missing (NaN), text, number or
    boolean.  Numbers are naturals because every numeric field of this
    dataset is a non-negative integer. -/
inductive Cell
  | na
  | str (s : Str)
  | nat (n : Nat)
  | bool (b : Bool)
deriving DecidableEq

/-- A pandas DataFrame: named columns and rows of cells aligned with them. -/
structure DataFrame where
  cols : List Str
  rows : List (List Cell)

/-- Index of a column name. -/
def colIdx (cols : List Str) (c : Str) : Option Nat := cols.findIdx? (fun x => x == c)

/-- Cell of a row under a column name (na when the column is absent). -/
def getCell (cols : List Str) (row : List Cell) (c : Str) : Cell :=
  match colIdx cols c with
  | some i => row.getD i .na
  | none => .na

/-- Pointwise transformation of one column when it is present. -/
def mapCol (df : DataFrame) (c : Str) (f : Cell → Cell) : DataFrame :=
  match colIdx df.cols c with
  | none => df
  | some i => { df with rows := df.rows.map (fun row => row.set i (f (row.getD i .na))) }

/-- pandas DataFrame.dropna(subset=...): raises KeyError when a subset column
    is absent, otherwise drops the rows with a missing value in any subset
    column. -/
def dropna_subset (df : DataFrame) (subset : List Str) : Except Str DataFrame :=
  if subset.all (fun c => df.cols.contains c) then
    .ok { df with
          rows := df.rows.filter (fun row => subset.all (fun c => !(getCell df.cols row c == .na))) }
  else .error "KeyError".data

/-- pandas Series.fillna on one column, guarded as in the source by a column
    presence check. -/
def fillnaCol (df : DataFrame) (c : Str) (v : Cell) : DataFrame :=
  if df.cols.contains c then mapCol df c (fun x => if x = .na then v else x) else df

/-- The critical columns of _handle_missing_values.  The source names a
    column genre although the collector emits genre_category. -/
def keyCols : List Str :=
  ["track_name".data, "artist_name".data, "popularity".data, "duration_ms".data, "genre".data]

/-- _handle_missing_values: drop the rows missing a critical field, then
    default the derived feature columns (lengths to 0, flags to False). -/
def handle_missing_values (df : DataFrame) : Except Str DataFrame :=
  match dropna_subset df keyCols with
  | .error e => .error e
  | .ok d =>
    .ok (fillnaCol (fillnaCol (fillnaCol (fillnaCol d
      "title_length".data (.nat 0))
      "word_count".data (.nat 0))
      "has_numbers".data (.bool false))
      "has_special_chars".data (.bool false))

/-- Row filter of pandas drop_duplicates(subset=[track_name, artist_name]),
    keeping the first occurrence of each key. -/
def dropDupRows (cols : List Str) (seen : List (Cell × Cell)) :
    List (List Cell) → List (List Cell)
  | [] => []
  | row :: rest =>
    let k := (getCell cols row "track_name".data, getCell cols row "artist_name".data)
    if seen.any (fun p => p == k) then dropDupRows cols seen rest
    else row :: dropDupRows cols (k :: seen) rest

/-- _remove_duplicates: pandas raises KeyError when a subset column is
    absent, otherwise the first occurrence of each (track_name, artist_name)
    key is kept. -/
def remove_duplicates (df : DataFrame) : Except Str DataFrame :=
  if df.cols.contains "track_name".data ∧ df.cols.contains "artist_name".data then
    .ok { df with rows := dropDupRows df.cols [] df.rows }
  else .error "KeyError".data

/-- pandas to_numeric(errors=coerce) on one cell: numbers stay, numeric text
    parses, non-numeric text coerces to missing, booleans become 0/1. -/
def toNumericCell : Cell → Cell
  | .nat n => .nat n
  | .str s => match pyIntOpt s with | some n => .nat n | none => .na
  | .bool b => .nat (if b then 1 else 0)
  | .na => .na

/-- pandas astype(bool) on one cell: Python truthiness; NaN is truthy. -/
def toBoolCell : Cell → Cell
  | .bool b => .bool b
  | .nat n => .bool (n != 0)
  | .str s => .bool (s != [])
  | .na => .bool true

/-- _validate_data_types: numeric columns coerced with to_numeric, boolean
    feature flags cast with astype(bool); each column guarded by presence. -/
def validate_data_types (df : DataFrame) : DataFrame :=
  let d1 := (["popularity".data, "duration_ms".data, "title_length".data, "word_count".data]).foldl
    (fun d c => mapCol d c toNumericCell) df
  (["has_numbers".data, "has_special_chars".data]).foldl (fun d c => mapCol d c toBoolCell) d1

/-- Clipping of one numeric cell to a closed range. -/
def clipCell (lo hi : Nat) : Cell → Cell
  | .nat n => .nat (min (max n lo) hi)
  | c => c

/-- _handle_outliers: clip popularity to [0,100], duration_ms to
    [0,3600000], title_length to [0,200] and word_count to [0,50]. -/
def handle_outliers (df : DataFrame) : DataFrame :=
  let d1 := mapCol df "popularity".data (clipCell 0 100)
  let d2 := mapCol d1 "duration_ms".data (clipCell 0 3600000)
  let d3 := mapCol d2 "title_length".data (clipCell 0 200)
  mapCol d3 "word_count".data (clipCell 0 50)

/-- Appending a derived column computed from each row. -/
def addCol (df : DataFrame) (c : Str) (f : List Cell → Cell) : DataFrame :=
  { cols := df.cols ++ [c], rows := df.rows.map (fun row => row ++ [f row]) }

/-- pd.cut of title_length over bins [0,20,40,60,inf): left-open right-closed
    intervals, values at or below the lowest edge become missing. -/
def cutTitleLength : Cell → Cell
  | .nat n =>
    if n = 0 then .na
    else if n ≤ 20 then .str "Very Short (0-20)".data
    else if n ≤ 40 then .str "Short (21-40)".data
    else if n ≤ 60 then .str "Medium (41-60)".data
    else .str "Long (60+)".data
  | _ => .na

/-- pd.cut of word_count over bins [0,2,4,inf). -/
def cutWordCount : Cell → Cell
  | .nat n =>
    if n = 0 then .na
    else if n ≤ 2 then .str "Short (1-2 words)".data
    else if n ≤ 4 then .str "Medium (3-4 words)".data
    else .str "Long (5+ words)".data
  | _ => .na

/-- pd.cut of popularity over bins [0,20,40,60,80,100]: values of 0 or above
    100 fall outside every interval and become missing. -/
def cutPopularity : Cell → Cell
  | .nat n =>
    if n = 0 ∨ 100 < n then .na
    else if n ≤ 20 then .str "Very Low (0-20)".data
    else if n ≤ 40 then .str "Low (21-40)".data
    else if n ≤ 60 then .str "Medium (41-60)".data
    else if n ≤ 80 then .str "High (61-80)".data
    else .str "Very High (81-100)".data
  | _ => .na

/-- Python truthiness of a cell, as the title_feature_group lambda uses it. -/
def cellTruthy : Cell → Bool
  | .bool b => b
  | .nat n => n != 0
  | .str s => s != []
  | .na => true

/-- The combined digit and special-character label of
    _create_derived_features. -/
def titleFeatureLabel (hasNum hasSpec : Bool) : Str :=
  (if hasNum then "Has Numbers, ".data else "No Numbers, ".data) ++
  (if hasSpec then "Has Special Chars".data else "No Special Chars".data)

/-- _create_derived_features: the four derived grouping columns;  the source
    indexes title_length, word_count, popularity and the two flag columns
    without a presence guard, so a missing one raises KeyError. -/
def create_derived_features (df : DataFrame) : Except Str DataFrame :=
  if df.cols.contains "title_length".data ∧ df.cols.contains "word_count".data ∧
     df.cols.contains "popularity".data ∧ df.cols.contains "has_numbers".data ∧
     df.cols.contains "has_special_chars".data then
    let d1 := addCol df "title_length_group".data
      (fun row => cutTitleLength (getCell df.cols row "title_length".data))
    let d2 := addCol d1 "word_count_group".data
      (fun row => cutWordCount (getCell df.cols row "word_count".data))
    let d3 := addCol d2 "popularity_category".data
      (fun row => cutPopularity (getCell df.cols row "popularity".data))
    .ok (addCol d3 "title_feature_group".data
      (fun row => .str (titleFeatureLabel
        (cellTruthy (getCell df.cols row "has_numbers".data))
        (cellTruthy (getCell df.cols row "has_special_chars".data)))))
  else .error "KeyError".data

/-- clean_data of SpotifyDataCleaner: missing values, duplicates, types,
    outliers, derived features, in that order; _validate_cleaned_data only
    reports and is the identity on the data. -/
def clean_data (df : DataFrame) : Except Str DataFrame :=
  match handle_missing_values df with
  | .error e => .error e
  | .ok d1 =>
    match remove_duplicates d1 with
    | .error e => .error e
    | .ok d2 => create_derived_features (handle_outliers (validate_data_types d2))

/-- The columns of the DataFrame that collect_tracks builds: the keys of the
    record dictionary appended in _search_tracks, in insertion order.  The
    category is emitted under genre_category and the year under
    release_year; no column is named genre. -/
def collectorColumns : List Str :=
  ["track_name".data, "artist_name".data, "popularity".data, "duration_ms".data,
   "title_length".data, "word_count".data, "has_numbers".data, "has_special_chars".data,
   "genre_category".data, "release_year".data]

/-- One collected record as a DataFrame row aligned with collectorColumns. -/
def recordToRow (r : Record) : List Cell :=
  [.str r.trackName, .str r.artistName, .nat r.popularity, .nat r.durationMs,
   .nat r.titleLength, .nat r.wordCount, .bool r.hasNumbers, .bool r.hasSpecialChars,
   .str r.genreCategory, .nat r.releaseYear]

/-- The DataFrame collect_tracks returns for a record list. -/
def recordsToDataFrame (rs : List Record) : DataFrame :=
  { cols := collectorColumns, rows := rs.map recordToRow }

/-- The strength label of _interpret_correlation: the inline conditional
    computing strong, moderate or weak from the absolute correlation.  The
    surrounding f-string assembly of the conclusion sentence, which only
    formats this label and the numeral, is presentation and is not
    modelled. -/
def correlationStrengthLabel (c : ℚ) : Str :=
  if 1/2 < |c| then "strong".data
  else if 3/10 < |c| then "moderate".data
  else "weak".data

/-- The effect label of _interpret_anova from eta squared. -/
def anovaEffectLabel (eta : ℚ) : Str :=
  if 14/100 < eta then "large".data
  else if 6/100 < eta then "medium".data
  else "small".data

/-- The effect label of _interpret_ttest from the absolute Cohen d. -/
def ttestEffectLabel (d : ℚ) : Str :=
  if 8/10 < |d| then "large".data
  else if 1/2 < |d| then "medium".data
  else "small".data

/-- The effect-size bands exactly as the spec words them, for comparison with
    the labels the source computes: correlation negligible below 0.1, small
    below 0.3, medium below 0.5, else large. -/
def specCorrelationBand (c : ℚ) : Str :=
  if |c| < 1/10 then "negligible".data
  else if |c| < 3/10 then "small".data
  else if |c| < 1/2 then "medium".data
  else "large".data

/-- The spec band for Cohen d: small below 0.5, medium below 0.8, else
    large. -/
def specCohensDBand (d : ℚ) : Str :=
  if |d| < 1/2 then "small".data
  else if |d| < 8/10 then "medium".data
  else "large".data

/-- The spec band for eta squared: small below 0.06, medium below 0.14, else
    large. -/
def specEtaSquaredBand (e : ℚ) : Str :=
  if e < 6/100 then "small".data
  else if e < 14/100 then "medium".data
  else "large".data

/-- A track that appears, with the same (title, artist) pair, in the result
    pages of every query: one copy per sampling year of album release date. -/
def dupTrack (d : Str) : Item :=
  { name := "Song".data, artistName := "Artist".data, releaseDate := some d,
    popularity := 50, durationMs := 200000 }

/-- The page every query of the duplicate environment returns. -/
def dupPage : List Item :=
  [dupTrack "2024-01-01".data, dupTrack "2023-01-01".data, dupTrack "2022-01-01".data,
   dupTrack "2021-01-01".data, dupTrack "2020-01-01".data]

/-- A search environment in which the same song is returned for every query:
    each (genre, year) cell then collects its own copy. -/
def dupEnv : SearchEnv := fun _ _ => dupPage

/-- A track with an empty title and a popularity above 100, as an upstream
    source unconstrained by the Spotify documentation could deliver it. -/
def badTrack (d : Str) : Item :=
  { name := [], artistName := "Artist".data, releaseDate := some d,
    popularity := 150, durationMs := 200000 }

/-- The page of the adversarial environment. -/
def badPage : List Item :=
  [badTrack "2024-01-01".data, badTrack "2023-01-01".data, badTrack "2022-01-01".data,
   badTrack "2021-01-01".data, badTrack "2020-01-01".data]

/-- A search environment returning an item that violates no filter of the
    source yet has popularity above 100 and an empty title. -/
def badEnv : SearchEnv := fun _ _ => badPage

/-- A well-formed track as the real API delivers them. -/
def goodTrack (d : Str) : Item :=
  { name := "Hello World".data, artistName := "Artist".data, releaseDate := some d,
    popularity := 50, durationMs := 200000 }

/-- The page of the well-behaved environment. -/
def goodPage : List Item :=
  [goodTrack "2024-01-01".data, goodTrack "2023-01-01".data, goodTrack "2022-01-01".data,
   goodTrack "2021-01-01".data, goodTrack "2020-01-01".data]

/-- A well-behaved search environment. -/
def goodEnv : SearchEnv := fun _ _ => goodPage

/-- An item whose album release-date field is present but empty, so the
    year verification of _search_tracks is skipped entirely. -/
def emptyDateTrack : Item :=
  { name := "Mystery Song".data, artistName := "Artist".data, releaseDate := some [],
    popularity := 20, durationMs := 180000 }

/-- The upstream guarantees the source relies on without checking: every
    delivered item has a popularity within the documented 0-100 scale and a
    title containing at least one word (some non-whitespace character). -/
def EnvOk (env : SearchEnv) : Prop :=
  ∀ (q : Str) (off : Nat), ∀ it ∈ env q off,
    it.popularity ≤ 100 ∧ 1 ≤ word_count it.name

/-- The record bounds of the claim, with the quality floor of 15 in place of
    the trivial lower bound 0. -/
def RecordOk (r : Record) : Prop :=
  15 ≤ r.popularity ∧ r.popularity ≤ 100 ∧ 1 ≤ r.titleLength ∧ 1 ≤ r.wordCount

lemma ite3_eq_first {α : Type} {p q : Prop} [Decidable p] [Decidable q] {a b c : α}
    (hba : b ≠ a) (hca : c ≠ a) :
    ((if p then a else if q then b else c) = a) ↔ p := by
  split_ifs with h1 h2 <;> simp [*]

lemma ite3_eq_second {α : Type} {p q : Prop} [Decidable p] [Decidable q] {a b c : α}
    (hab : a ≠ b) (hcb : c ≠ b) :
    ((if p then a else if q then b else c) = b) ↔ ¬p ∧ q := by
  split_ifs with h1 h2 <;> simp [*]

lemma ite3_eq_third {α : Type} {p q : Prop} [Decidable p] [Decidable q] {a b c : α}
    (hac : a ≠ c) (hbc : b ≠ c) :
    ((if p then a else if q then b else c) = c) ↔ ¬p ∧ ¬q := by
  split_ifs with h1 h2 <;> simp [*]

/-- C5: a caller-supplied per-genre total passed to collect_tracks sets the
    per-year sub-target to the total divided by the number of years, floored,
    with a minimum of one; collect_tracks runs on exactly that adjusted
    state, and a target of 10 over the five configured years yields a
    per-year sub-target of 2. -/
theorem c5_per_year_sub_target :
    ∀ (env : SearchEnv) (st : CollectorState) (t : Nat),
      (applyTarget st (some t)).tracksPerYear = max (t / st.years.length) 1 ∧
      (applyTarget st (some t)).targetPerGenre = t ∧
      collect_tracks env st (some t) = collect_tracks env (applyTarget st (some t)) none ∧
      (applyTarget (initCollector false) (some 10)).tracksPerYear = 2 := by
  intro env st t
  refine ⟨?_, rfl, rfl, by decide⟩
  simp only [applyTarget, perYearSubTarget]
  rcases Nat.eq_zero_or_pos (t / st.years.length) with h | h
  · rw [if_pos h, h]
    exact (Nat.max_eq_right (Nat.zero_le 1)).symm
  · rw [if_neg (by omega)]
    exact (Nat.max_eq_left h).symm

/-- C8 (amended): the worked feature-extraction examples hold with a title
    length of 19 for the string Lost In Translation; the length of 20 the
    spec states is the one false conjunct. -/
theorem c8_feature_extractor_examples :
    word_count "Lost In Translation".data = 3 ∧
    title_length "Lost In Translation".data = 19 ∧
    has_digit "Lost In Translation".data = false ∧
    has_special_char "Lost In Translation".data = false ∧
    has_digit "99 Problems".data = true ∧
    has_special_char "Rock & Roll".data = true := by decide

/-- C8 counterexample: the character count of Lost In Translation is not 20,
    so the claimed title_length value fails on the code. -/
theorem c8_counterexample_title_length :
    title_length "Lost In Translation".data ≠ 20 := by decide

/-- C9 (amended): the conclusion labels of the source classify the effect
    sizes as weak, moderate or strong (correlation, thresholds 0.3 and 0.5
    with no negligible band) and small, medium or large (Cohen d with
    thresholds 0.5 and 0.8, eta squared with thresholds 0.06 and 0.14), each
    boundary value falling into the lower band because the source compares
    with strict greater-than. -/
theorem c9_effect_size_bands :
    ∀ c d e : ℚ,
      (correlationStrengthLabel c = "strong".data ↔ 1/2 < |c|) ∧
      (correlationStrengthLabel c = "moderate".data ↔ 3/10 < |c| ∧ |c| ≤ 1/2) ∧
      (correlationStrengthLabel c = "weak".data ↔ |c| ≤ 3/10) ∧
      (ttestEffectLabel d = "large".data ↔ 8/10 < |d|) ∧
      (ttestEffectLabel d = "medium".data ↔ 1/2 < |d| ∧ |d| ≤ 8/10) ∧
      (ttestEffectLabel d = "small".data ↔ |d| ≤ 1/2) ∧
      (anovaEffectLabel e = "large".data ↔ 14/100 < e) ∧
      (anovaEffectLabel e = "medium".data ↔ 6/100 < e ∧ e ≤ 14/100) ∧
      (anovaEffectLabel e = "small".data ↔ e ≤ 6/100) := by
  intro c d e
  refine ⟨?_, ?_, ?_, ?_, ?_, ?_, ?_, ?_, ?_⟩
  · simp only [correlationStrengthLabel]
    rw [ite3_eq_first (by decide) (by decide)]
  · simp only [correlationStrengthLabel]
    rw [ite3_eq_second (by decide) (by decide)]
    constructor
    · rintro ⟨h1, h2⟩; exact ⟨h2, not_lt.mp h1⟩
    · rintro ⟨h2, h1⟩; exact ⟨not_lt.mpr h1, h2⟩
  · simp only [correlationStrengthLabel]
    rw [ite3_eq_third (by decide) (by decide)]
    constructor
    · rintro ⟨h1, h2⟩; exact not_lt.mp h2
    · intro h; exact ⟨not_lt.mpr (le_trans h (by norm_num)), not_lt.mpr h⟩
  · simp only [ttestEffectLabel]
    rw [ite3_eq_first (by decide) (by decide)]
  · simp only [ttestEffectLabel]
    rw [ite3_eq_second (by decide) (by decide)]
    constructor
    · rintro ⟨h1, h2⟩; exact ⟨h2, not_lt.mp h1⟩
    · rintro ⟨h2, h1⟩; exact ⟨not_lt.mpr h1, h2⟩
  · simp only [ttestEffectLabel]
    rw [ite3_eq_third (by decide) (by decide)]
    constructor
    · rintro ⟨h1, h2⟩; exact not_lt.mp h2
    · intro h; exact ⟨not_lt.mpr (le_trans h (by norm_num)), not_lt.mpr h⟩
  · simp only [anovaEffectLabel]
    rw [ite3_eq_first (by decide) (by decide)]
  · simp only [anovaEffectLabel]
    rw [ite3_eq_second (by decide) (by decide)]
    constructor
    · rintro ⟨h1, h2⟩; exact ⟨h2, not_lt.mp h1⟩
    · rintro ⟨h2, h1⟩; exact ⟨not_lt.mpr h1, h2⟩
  · simp only [anovaEffectLabel]
    rw [ite3_eq_third (by decide) (by decide)]
    constructor
    · rintro ⟨h1, h2⟩; exact not_lt.mp h2
    · intro h; exact ⟨not_lt.mpr (le_trans h (by norm_num)), not_lt.mpr h⟩

/-- C9 counterexample: at concrete effect sizes the labels the source
    computes disagree with the bands the spec states — a correlation of 0.05
    is labelled weak, never negligible; a Cohen d of exactly 0.5 is labelled
    small where the spec band says medium; an eta squared of exactly 0.06 is
    labelled small where the spec band says medium. -/
theorem c9_counterexample_band_labels :
    correlationStrengthLabel (1/20) ≠ specCorrelationBand (1/20) ∧
    ttestEffectLabel (1/2) ≠ specCohensDBand (1/2) ∧
    anovaEffectLabel (6/100) ≠ specEtaSquaredBand (6/100) := by
  have habs1 : |(1 : ℚ)/20| = 1/20 := abs_of_pos (by norm_num)
  have habs2 : |(1 : ℚ)/2| = 1/2 := abs_of_pos (by norm_num)
  refine ⟨?_, ?_, ?_⟩
  · have h1 : correlationStrengthLabel (1/20) = "weak".data := by
      unfold correlationStrengthLabel
      rw [habs1, if_neg (by norm_num), if_neg (by norm_num)]
    have h2 : specCorrelationBand (1/20) = "negligible".data := by
      unfold specCorrelationBand
      rw [habs1, if_pos (by norm_num)]
    rw [h1, h2]; decide
  · have h1 : ttestEffectLabel (1/2) = "small".data := by
      unfold ttestEffectLabel
      rw [habs2, if_neg (by norm_num), if_neg (by norm_num)]
    have h2 : specCohensDBand (1/2) = "medium".data := by
      unfold specCohensDBand
      rw [habs2, if_neg (by norm_num), if_pos (by norm_num)]
    rw [h1, h2]; decide
  · have h1 : anovaEffectLabel (6/100) = "small".data := by
      unfold anovaEffectLabel
      rw [if_neg (by norm_num), if_neg (by norm_num)]
    have h2 : specEtaSquaredBand (6/100) = "medium".data := by
      unfold specEtaSquaredBand
      rw [if_neg (by norm_num), if_pos (by norm_num)]
    rw [h1, h2]; decide

/-- C2 (amended): an item the search keeps is appended as a record whose
    year field is the target year, has popularity at least 15, and carries a
    release-date field that is either empty — in which case the source skips
    the verification entirely and keeps the item unverified — or parses, over
    its first four characters, to exactly the target year.  The claim that an
    item is kept only when the parsed year equals the target fails on the
    empty-date path. -/
theorem c2_kept_item_year_verification :
    ∀ (targetYear : Nat) (genre : Str) (acc : List Record) (it : Item),
      processItem targetYear genre acc it ≠ acc →
        processItem targetYear genre acc it = acc ++ [mkRecord it genre targetYear] ∧
        (mkRecord it genre targetYear).releaseYear = targetYear ∧
        15 ≤ it.popularity ∧
        ∃ d, it.releaseDate = some d ∧
          (d = [] ∨ parse_release_year d = some targetYear) := by
  intro ty g acc it h
  unfold processItem at h ⊢
  split_ifs at h ⊢ with h1 h2 h3
  · exact absurd rfl h
  · exact absurd rfl h
  · exact absurd rfl h
  · refine ⟨rfl, rfl, Nat.not_lt.mp h3, ?_⟩
    have hp : passes_year_check it ty = true := by
      cases hpc : passes_year_check it ty
      · exact absurd hpc h2
      · rfl
    unfold passes_year_check at hp
    cases hrd : it.releaseDate with
    | none => rw [hrd] at hp; dsimp only at hp; exact absurd hp (by simp)
    | some d =>
      rw [hrd] at hp
      dsimp only at hp
      refine ⟨d, rfl, ?_⟩
      by_cases hd : d = []
      · exact Or.inl hd
      · right
        rw [if_neg hd] at hp
        cases hpr : parse_release_year d with
        | none => rw [hpr] at hp; dsimp only at hp; simp at hp
        | some ry =>
          rw [hpr] at hp
          dsimp only at hp
          have hry : ry = ty := by simpa using hp
          rw [hry]

/-- C2 witness: a concrete well-formed item is kept, and the amended
    description applies to it. -/
theorem c2_witness :
    processItem 2024 "pop".data [] (goodTrack "2024-01-01".data) =
      [] ++ [mkRecord (goodTrack "2024-01-01".data) "pop".data 2024] ∧
    (mkRecord (goodTrack "2024-01-01".data) "pop".data 2024).releaseYear = 2024 ∧
    15 ≤ (goodTrack "2024-01-01".data).popularity ∧
    ∃ d, (goodTrack "2024-01-01".data).releaseDate = some d ∧
      (d = [] ∨ parse_release_year d = some 2024) :=
  c2_kept_item_year_verification 2024 "pop".data [] (goodTrack "2024-01-01".data) (by decide)

/-- C2 counterexample: an item whose album release-date metadata is present
    but empty is kept by the search with the target year as its label even
    though no release year parses from its metadata, refuting the claim that
    an item is kept only when the parsed metadata year equals the target
    year. -/
theorem c2_counterexample_empty_release_date :
    emptyDateTrack.releaseDate = some [] ∧
    processItem 2024 "pop".data [] emptyDateTrack =
      [mkRecord emptyDateTrack "pop".data 2024] ∧
    (mkRecord emptyDateTrack "pop".data 2024).releaseYear = 2024 ∧
    parse_release_year [] = none := by decide

/-- C4 (spec-modelled): recovery fails with a RecoveryError-class condition
    exactly when no checkpoint file of the directory is parseable, and
    returns a consolidated dataset exactly when at least one file is
    parseable — unreadable files are skipped, never fatal. -/
theorem c4_recovery_error_iff_no_parseable :
    ∀ (files : List (Option (List Record))),
      ((∃ e, recover_partial_collection files = .error e) ↔ ∀ f ∈ files, f = none) ∧
      ((∃ out, recover_partial_collection files = .ok out) ↔ ∃ l, some l ∈ files) := by
  intro files
  have hval : recover_partial_collection files =
      (if files.filterMap id = [] then .error "RecoveryError"
       else .ok (dedupAux [] (files.filterMap id).flatten)) := rfl
  rw [hval]
  by_cases h : files.filterMap id = []
  · rw [if_pos h]
    have hall : ∀ f ∈ files, f = none := by
      intro f hf
      exact List.filterMap_eq_nil_iff.mp h f hf
    constructor
    · simp only [Except.error.injEq]
      constructor
      · intro _; exact hall
      · intro _; exact ⟨"RecoveryError", rfl⟩
    · constructor
      · rintro ⟨out, hout⟩; exact absurd hout (by simp)
      · rintro ⟨l, hl⟩
        have : l ∈ files.filterMap id := List.mem_filterMap.mpr ⟨some l, hl, rfl⟩
        rw [h] at this
        exact absurd this (List.not_mem_nil l)
  · rw [if_neg h]
    obtain ⟨x, hx⟩ := List.exists_mem_of_ne_nil _ h
    obtain ⟨a, ha, hfa⟩ := List.mem_filterMap.mp hx
    have hax : a = some x := hfa
    constructor
    · constructor
      · rintro ⟨e, he⟩; exact absurd he (by simp)
      · intro hall
        have := hall a ha
        rw [this] at hax
        exact absurd hax (by simp)
    · constructor
      · intro _; exact ⟨x, hax ▸ ha⟩
      · intro _; exact ⟨dedupAux [] (files.filterMap id).flatten, rfl⟩

/-- C10: the critical-field drop of the missing-value step names a column
    genre, so clean_data fails with a KeyError on every dataframe lacking
    that column; the collector emits the category as genre_category, so the
    dataframe built from any collector output lacks genre and clean_data
    always fails on it. -/
theorem c10_clean_data_keyerror_on_collector_output :
    ∀ (df : DataFrame) (rs : List Record),
      (df.cols.contains "genre".data = false → ∃ e, clean_data df = .error e) ∧
      (recordsToDataFrame rs).cols.contains "genre".data = false ∧
      (∃ e, clean_data (recordsToDataFrame rs) = .error e) := by
  intro df rs
  have hgen : ∀ (d : DataFrame), d.cols.contains "genre".data = false →
      ∃ e, clean_data d = .error e := by
    intro d hc
    refine ⟨"KeyError".data, ?_⟩
    have hall : (keyCols.all fun c => d.cols.contains c) = false := by
      simp only [keyCols, List.all_cons, List.all_nil, hc, Bool.and_false, Bool.and_true]
    have hdrop : dropna_subset d keyCols = .error "KeyError".data := by
      unfold dropna_subset
      rw [hall, if_neg (by simp)]
    unfold clean_data handle_missing_values
    rw [hdrop]
  have hcols : (recordsToDataFrame rs).cols.contains "genre".data = false := rfl
  exact ⟨hgen df, hcols, hgen _ hcols⟩

/-- C10 witness: on a concrete collector-shaped dataframe the cleaning
    pipeline fails. -/
theorem c10_witness :
    ∃ e, clean_data (recordsToDataFrame []) = .error e :=
  (c10_clean_data_keyerror_on_collector_output (recordsToDataFrame []) []).1 (by decide)

lemma foldl_append_eq_nil {α β : Type} (f : α → List β) :
    ∀ (l : List α) (a : List β),
      (List.foldl (fun acc x => acc ++ f x) a l = [] ↔ a = [] ∧ ∀ x ∈ l, f x = []) := by
  intro l
  induction l with
  | nil => intro a; simp
  | cons x xs ih =>
    intro a
    rw [List.foldl_cons, ih (a ++ f x)]
    simp only [List.append_eq_nil, List.mem_cons]
    constructor
    · rintro ⟨⟨ha, hx⟩, hall⟩
      refine ⟨ha, ?_⟩
      intro y hy
      rcases hy with rfl | hy
      · exact hx
      · exact hall y hy
    · rintro ⟨ha, hall⟩
      exact ⟨⟨ha, hall x (Or.inl rfl)⟩, fun y hy => hall y (Or.inr hy)⟩

/-- C3: the collection run fails (collect_tracks returns the None failure
    outcome the caller checks for) exactly when every genre contributed zero
    records; any nonempty accumulation yields a dataset, so per-cell
    shortfalls are never fatal and the empty run is the only fatal condition
    inside collection. -/
theorem c3_run_failure_iff_no_records :
    ∀ (env : SearchEnv) (st : CollectorState) (t : Option Nat),
      collect_tracks env st t = none ↔
        ∀ g ∈ (applyTarget st t).genres, collect_genre_tracks env (applyTarget st t) g = [] := by
  intro env st t
  have hiff := foldl_append_eq_nil
    (fun g => collect_genre_tracks env (applyTarget st t) g) (applyTarget st t).genres []
  by_cases h : runRecords env st t = []
  · have hrw : collect_tracks env st t = none := by
      unfold collect_tracks
      rw [if_pos h]
    rw [hrw]
    simp only [true_iff]
    unfold runRecords at h
    exact (hiff.mp h).2
  · have hrw : collect_tracks env st t = some (runRecords env st t) := by
      unfold collect_tracks
      rw [if_neg h]
    rw [hrw]
    simp only [reduceCtorEq, false_iff]
    intro hall
    apply h
    unfold runRecords
    exact hiff.mpr ⟨rfl, hall⟩

lemma keyUnique_append (acc : List Record) (r : Record) :
    keyUnique (acc ++ [r]) = (keyUnique acc && !(acc.any fun a => sameKey a r)) := by
  induction acc with
  | nil => simp [keyUnique]
  | cons x xs ih =>
    have h1 : keyUnique ((x :: xs) ++ [r]) =
        (!((xs ++ [r]).any (sameKey x)) && keyUnique (xs ++ [r])) := rfl
    have h2 : keyUnique (x :: xs) = (!(xs.any (sameKey x)) && keyUnique xs) := rfl
    have h3 : List.any [r] (sameKey x) = sameKey x r := by simp
    have h4 : ((x :: xs).any fun a => sameKey a r) =
        (sameKey x r || xs.any fun a => sameKey a r) := rfl
    rw [h1, h2, ih, List.any_append, h3, h4]
    cases hx : xs.any (sameKey x) <;> cases hk : keyUnique xs <;>
      cases hr : sameKey x r <;> cases ha : xs.any (fun a => sameKey a r) <;> rfl

lemma processItem_keyUnique (ty : Nat) (g : Str) (acc : List Record) (it : Item)
    (h : keyUnique acc = true) : keyUnique (processItem ty g acc it) = true := by
  unfold processItem
  split_ifs with h1 h2 h3
  · exact h
  · exact h
  · exact h
  · rw [keyUnique_append, h]
    have heq : (acc.any fun a => sameKey a (mkRecord it g ty)) =
        (acc.any fun t => t.trackName == it.name && t.artistName == it.artistName) := rfl
    rw [heq]
    simp only [Bool.true_and, Bool.not_eq_true']
    exact Bool.not_eq_true _ ▸ (Bool.eq_false_iff.mpr h1)

lemma processPage_keyUnique (tpy ty : Nat) (g : Str) :
    ∀ (page : List Item) (acc : List Record), keyUnique acc = true →
      keyUnique (processPage tpy ty g page acc) = true := by
  intro page
  induction page with
  | nil => intro acc h; exact h
  | cons it rest ih =>
    intro acc h
    unfold processPage
    split_ifs with h1
    · exact h
    · exact ih _ (processItem_keyUnique ty g acc it h)

lemma searchTracksAux_keyUnique (env : SearchEnv) (q : Str) (tpy ty : Nat) (g : Str) :
    ∀ (fuel offset : Nat) (acc : List Record), keyUnique acc = true →
      keyUnique (searchTracksAux env q tpy ty g offset fuel acc) = true := by
  intro fuel
  induction fuel with
  | zero => intro offset acc h; exact h
  | succ n ih =>
    intro offset acc h
    unfold searchTracksAux
    split_ifs with h1 h2
    · exact h
    · exact ih _ _ (processPage_keyUnique tpy ty g _ acc h)
    · exact h

lemma attemptQueryVariant_keyUnique (env : SearchEnv) (queries : List Str) (g : Str)
    (year tpy qi : Nat) (acc : List Record) (h : keyUnique acc = true) :
    keyUnique (attemptQueryVariant env queries g year tpy qi acc) = true := by
  unfold attemptQueryVariant
  split_ifs with h1
  · exact searchTracksAux_keyUnique env _ tpy year g 500 0 acc h
  · exact searchTracksAux_keyUnique env _ tpy year g 500 0 _
      (searchTracksAux_keyUnique env _ tpy year g 500 0 acc h)

lemma collectCellAux_keyUnique (env : SearchEnv) (queries : List Str) (g : Str) (year tpy : Nat) :
    ∀ (fuel qi : Nat) (acc : List Record), keyUnique acc = true →
      keyUnique (collectCellAux env queries g year tpy qi fuel acc).1 = true := by
  intro fuel
  induction fuel with
  | zero => intro qi acc h; exact h
  | succ n ih =>
    intro qi acc h
    unfold collectCellAux
    split_ifs with h1
    · exact h
    · exact ih _ _ (attemptQueryVariant_keyUnique env queries g year tpy qi acc h)

/-- C1 (amended): within each single (category, year) cell the collected
    records have pairwise distinct (title, artist) pairs, because the
    duplicate check of _search_tracks runs against the current cell
    accumulator; the run-wide claim fails because that accumulator is reset
    for every cell. -/
theorem c1_per_cell_key_uniqueness :
    ∀ (env : SearchEnv) (queries : List Str) (genre : Str) (year tpy : Nat),
      keyUnique (collectCellRecords env queries genre year tpy) = true := by
  intro env queries genre year tpy
  exact collectCellAux_keyUnique env queries genre year tpy _ 0 [] rfl

/-- C1 counterexample: in an environment that returns the same song for
    every query, a full collection run retains one copy of it per cell, so
    the returned dataset violates run-wide (title, artist) uniqueness. -/
theorem c1_counterexample_run_duplicate :
    keyUnique (runRecords dupEnv (initCollector false) (some 5)) = false := by decide

lemma collectCellAux_attempt_bound (env : SearchEnv) (queries : List Str) (g : Str)
    (year tpy : Nat) :
    ∀ (fuel qi : Nat) (acc : List Record),
      (collectCellAux env queries g year tpy qi fuel acc).2 ≤ fuel ∧
      ((collectCellAux env queries g year tpy qi fuel acc).2 < fuel →
        tpy ≤ (collectCellAux env queries g year tpy qi fuel acc).1.length) := by
  intro fuel
  induction fuel with
  | zero =>
    intro qi acc
    exact ⟨Nat.le_refl 0, fun h => absurd h (by omega)⟩
  | succ n ih =>
    intro qi acc
    unfold collectCellAux
    split_ifs with h1
    · exact ⟨Nat.zero_le _, fun _ => h1⟩
    · obtain ⟨hb, he⟩ := ih (qi + 1) (attemptQueryVariant env queries g year tpy qi acc)
      exact ⟨Nat.succ_le_succ hb, fun hlt => he (Nat.lt_of_succ_lt_succ hlt)⟩

/-- C6: every (category, year) cell loop performs at most
    len(genre_queries) * 3 round-robin variant attempts — each attempt
    trying the two formulations — and it stays under that bound only by
    stopping early once the per-year target count is reached. -/
theorem c6_cell_attempt_bound :
    ∀ (env : SearchEnv) (queries : List Str) (genre : Str) (year tpy : Nat),
      (collectCell env queries genre year tpy).2 ≤ queries.length * 3 ∧
      ((collectCell env queries genre year tpy).2 < queries.length * 3 →
        tpy ≤ (collectCell env queries genre year tpy).1.length) := by
  intro env queries genre year tpy
  exact collectCellAux_attempt_bound env queries genre year tpy (queries.length * 3) 0 []

/-- C6 witness: a concrete cell that stops after one attempt, below the
    budget of three, has reached its target count. -/
theorem c6_witness :
    1 ≤ (collectCell goodEnv ["genre:pop".data] "pop".data 2024 1).1.length :=
  (c6_cell_attempt_bound goodEnv ["genre:pop".data] "pop".data 2024 1).2 (by decide)

lemma processItem_preserve {P : Record → Prop} {Q : Item → Prop}
    (hmk : ∀ (it : Item) (g : Str) (ty : Nat), Q it → ¬ it.popularity < 15 →
      P (mkRecord it g ty)) :
    ∀ (ty : Nat) (g : Str) (acc : List Record) (it : Item),
      (∀ r ∈ acc, P r) → Q it → ∀ r ∈ processItem ty g acc it, P r := by
  intro ty g acc it hacc hit r hr
  unfold processItem at hr
  split_ifs at hr with h1 h2 h3
  · exact hacc r hr
  · exact hacc r hr
  · exact hacc r hr
  · rcases List.mem_append.mp hr with h | h
    · exact hacc r h
    · have heq : r = mkRecord it g ty := by simpa using h
      rw [heq]
      exact hmk it g ty hit h3

lemma processPage_preserve {P : Record → Prop} {Q : Item → Prop}
    (hmk : ∀ (it : Item) (g : Str) (ty : Nat), Q it → ¬ it.popularity < 15 →
      P (mkRecord it g ty)) :
    ∀ (page : List Item) (tpy ty : Nat) (g : Str) (acc : List Record),
      (∀ r ∈ acc, P r) → (∀ it ∈ page, Q it) →
      ∀ r ∈ processPage tpy ty g page acc, P r := by
  intro page
  induction page with
  | nil => intro tpy ty g acc hacc _ r hr; exact hacc r hr
  | cons it rest ih =>
    intro tpy ty g acc hacc hpage r hr
    unfold processPage at hr
    split_ifs at hr with h1
    · exact hacc r hr
    · exact ih tpy ty g _
        (processItem_preserve hmk ty g acc it hacc (hpage it (by simp)))
        (fun x hx => hpage x (by simp [hx])) r hr

lemma searchTracksAux_preserve {P : Record → Prop} {Q : Item → Prop}
    (hmk : ∀ (it : Item) (g : Str) (ty : Nat), Q it → ¬ it.popularity < 15 →
      P (mkRecord it g ty))
    (env : SearchEnv) (q : Str) (tpy ty : Nat) (g : Str)
    (henv : ∀ off, ∀ it ∈ env q off, Q it) :
    ∀ (fuel offset : Nat) (acc : List Record), (∀ r ∈ acc, P r) →
      ∀ r ∈ searchTracksAux env q tpy ty g offset fuel acc, P r := by
  intro fuel
  induction fuel with
  | zero => intro offset acc hacc r hr; exact hacc r hr
  | succ n ih =>
    intro offset acc hacc r hr
    unfold searchTracksAux at hr
    split_ifs at hr with h1 h2
    · exact hacc r hr
    · exact ih _ _ (processPage_preserve hmk _ tpy ty g acc hacc (henv offset)) r hr
    · exact hacc r hr

lemma attemptQueryVariant_preserve {P : Record → Prop} {Q : Item → Prop}
    (hmk : ∀ (it : Item) (g : Str) (ty : Nat), Q it → ¬ it.popularity < 15 →
      P (mkRecord it g ty))
    (env : SearchEnv) (queries : List Str) (g : Str) (year tpy qi : Nat)
    (acc : List Record)
    (henv : ∀ q off, ∀ it ∈ env q off, Q it) (hacc : ∀ r ∈ acc, P r) :
    ∀ r ∈ attemptQueryVariant env queries g year tpy qi acc, P r := by
  unfold attemptQueryVariant
  split_ifs with h1
  · exact searchTracksAux_preserve hmk env _ tpy year g (fun off => henv _ off) 500 0 acc hacc
  · exact searchTracksAux_preserve hmk env _ tpy year g (fun off => henv _ off) 500 0 _
      (searchTracksAux_preserve hmk env _ tpy year g (fun off => henv _ off) 500 0 acc hacc)

lemma collectCellAux_preserve {P : Record → Prop} {Q : Item → Prop}
    (hmk : ∀ (it : Item) (g : Str) (ty : Nat), Q it → ¬ it.popularity < 15 →
      P (mkRecord it g ty))
    (env : SearchEnv) (queries : List Str) (g : Str) (year tpy : Nat)
    (henv : ∀ q off, ∀ it ∈ env q off, Q it) :
    ∀ (fuel qi : Nat) (acc : List Record), (∀ r ∈ acc, P r) →
      ∀ r ∈ (collectCellAux env queries g year tpy qi fuel acc).1, P r := by
  intro fuel
  induction fuel with
  | zero => intro qi acc hacc r hr; exact hacc r hr
  | succ n ih =>
    intro qi acc hacc r hr
    unfold collectCellAux at hr
    split_ifs at hr with h1
    · exact hacc r hr
    · exact ih _ _
        (attemptQueryVariant_preserve hmk env queries g year tpy qi acc henv hacc) r hr

lemma foldl_append_mem {α β : Type} (f : α → List β) :
    ∀ (l : List α) (a0 : List β) (x : β),
      x ∈ List.foldl (fun acc y => acc ++ f y) a0 l → x ∈ a0 ∨ ∃ y ∈ l, x ∈ f y := by
  intro l
  induction l with
  | nil => intro a0 x hx; exact Or.inl hx
  | cons y ys ih =>
    intro a0 x hx
    rw [List.foldl_cons] at hx
    rcases ih (a0 ++ f y) x hx with h | ⟨z, hz, hxz⟩
    · rcases List.mem_append.mp h with h | h
      · exact Or.inl h
      · exact Or.inr ⟨y, by simp, h⟩
    · exact Or.inr ⟨z, by simp [hz], hxz⟩

lemma runRecords_preserve {P : Record → Prop} {Q : Item → Prop}
    (hmk : ∀ (it : Item) (g : Str) (ty : Nat), Q it → ¬ it.popularity < 15 →
      P (mkRecord it g ty))
    (env : SearchEnv) (st : CollectorState) (t : Option Nat)
    (henv : ∀ q off, ∀ it ∈ env q off, Q it) :
    ∀ r ∈ runRecords env st t, P r := by
  intro r hr
  unfold runRecords at hr
  rcases foldl_append_mem _ _ _ _ hr with h | ⟨g, _, hrg⟩
  · exact absurd h (List.not_mem_nil r)
  · unfold collect_genre_tracks at hrg
    rcases foldl_append_mem _ _ _ _ hrg with h | ⟨y, _, hry⟩
    · exact absurd h (List.not_mem_nil r)
    · unfold collectCellRecords collectCell at hry
      exact collectCellAux_preserve hmk env _ g y _ henv _ 0 []
        (fun x hx => absurd hx (List.not_mem_nil x)) r hry

lemma length_pos_of_word_count_pos (s : Str) (h : 1 ≤ word_count s) : 1 ≤ s.length := by
  by_contra h2
  push_neg at h2
  have hz : s = [] := List.length_eq_zero.mp (by omega)
  rw [hz] at h
  exact absurd h (by decide)

/-- C7 (amended): every collected record has popularity at least the quality
    floor 15 unconditionally; and under the upstream guarantees the source
    relies on without checking them — popularity within the 0-100 scale and a
    title with at least one word — every collected record also satisfies
    popularity at most 100, title_length at least 1 and word_count at
    least 1.  The claim fails without those environment assumptions because
    the source never checks the upper popularity bound or rejects empty
    titles. -/
theorem c7_record_bounds_under_env_assumptions :
    ∀ (env : SearchEnv) (st : CollectorState) (t : Option Nat),
      (∀ r ∈ runRecords env st t, 15 ≤ r.popularity) ∧
      (EnvOk env → ∀ r ∈ runRecords env st t, RecordOk r) := by
  intro env st t
  constructor
  · exact runRecords_preserve (Q := fun _ => True)
      (fun it g ty _ h15 => Nat.not_lt.mp h15) env st t (fun _ _ _ _ => trivial)
  · intro henv
    refine runRecords_preserve
      (Q := fun it => it.popularity ≤ 100 ∧ 1 ≤ word_count it.name)
      ?_ env st t (fun q off it hit => henv q off it hit)
    intro it g ty hq h15
    exact ⟨Nat.not_lt.mp h15, hq.1, length_pos_of_word_count_pos it.name hq.2, hq.2⟩

/-- C7 witness: the record collected from a concrete well-formed item
    satisfies all claimed bounds. -/
theorem c7_witness :
    15 ≤ (mkRecord (goodTrack "2024-01-01".data) "pop".data 2024).popularity ∧
    RecordOk (mkRecord (goodTrack "2024-01-01".data) "pop".data 2024) := by
  constructor
  · exact (c7_record_bounds_under_env_assumptions goodEnv (initCollector false) (some 5)).1
      _ (by decide)
  · refine (c7_record_bounds_under_env_assumptions goodEnv (initCollector false) (some 5)).2
      ?_ _ (by decide)
    intro q off it hit
    have hp : it ∈ goodPage := hit
    simp only [goodPage, List.mem_cons, List.not_mem_nil, or_false] at hp
    rcases hp with rfl | rfl | rfl | rfl | rfl <;> exact ⟨by decide, by decide⟩

/-- C7 counterexample: an upstream item with popularity 150 and an empty
    title passes every filter of the source, so the collected dataset
    contains a record violating the claimed popularity, title-length and
    word-count bounds. -/
theorem c7_counterexample_unchecked_item :
    ¬ (∀ r ∈ runRecords badEnv (initCollector false) (some 5),
        r.popularity ≤ 100 ∧ 1 ≤ r.titleLength ∧ 1 ≤ r.wordCount) := by
  intro hall
  have hm : (mkRecord (badTrack "2024-01-01".data) "pop".data 2024) ∈
      runRecords badEnv (initCollector false) (some 5) := by decide
  exact absurd (hall _ hm).1 (by decide)
